import Mathlib

/-!
Verification development for the marine-generator example client
(`example_client.py`): a shallow embedding of the `GeneratorClient`
class (`connect`, `send_command`, `close`) and of the demonstration
driver `main`, together with theorems about the session protocol,
the reply-decoding discipline and the driver sequence.

Modelling conventions:
* Python socket objects are modelled by `PySocket` (handle, connected
  flag, closed flag); the attribute `self.socket` is `Option PySocket`.
* Network nondeterminism (what the remote engine and the OS do on each
  socket call) is supplied by explicit behaviour parameters
  (`ConnectB`, `SendB`, `RecvB`); calling `send` or `recv` on a closed
  or never-connected socket raises deterministically, as in CPython,
  and is modelled as such without consulting the behaviour parameter.
* Every observable effect (socket method calls, sleeps, console
  output) is recorded in a trace of events `Ev`; `print` narration
  that carries no protocol content is elided except where the source
  prints inside the client methods themselves.
* `json.loads` is modelled by `jsonLoads`, an executable parser of the
  JSON grammar (objects, arrays, strings with the single-character
  escapes, integer numerals, `true`/`false`/`null`).  Fractional and
  exponent numeral forms and `\u` escapes are outside the fragment
  exercised by this client and are not modelled; a string rejected by
  the parser decodes to the raw-text fallback, exactly as the
  `except json.JSONDecodeError` branch of the source does.
-/

/-- A decoded JSON value, the result type of `json.loads`. -/
inductive Json where
  | null : Json
  | bool : Bool → Json
  | num : Int → Json
  | str : String → Json
  | arr : List Json → Json
  | obj : List (String × Json) → Json
deriving Repr

/-- JSON whitespace characters. -/
def isWsChar (c : Char) : Bool :=
  c = ' ' || c = '\t' || c = '\n' || c = '\r'

/-- Drop leading JSON whitespace. -/
def skipWs : List Char → List Char
  | [] => []
  | c :: cs => if isWsChar c then skipWs cs else c :: cs

/-- The opening-brace character of a JSON object. -/
def braceO : Char := Char.ofNat 123

/-- The closing-brace character of a JSON object. -/
def braceC : Char := Char.ofNat 125

/-- Single-character JSON string escapes. -/
def escChar : Char → Option Char
  | '"' => some '"'
  | '\\' => some '\\'
  | '/' => some '/'
  | 'b' => some (Char.ofNat 8)
  | 'f' => some (Char.ofNat 12)
  | 'n' => some '\n'
  | 'r' => some '\r'
  | 't' => some '\t'
  | _ => none

/-- Parse the body of a JSON string after the opening quote; returns the
decoded characters and the remaining input after the closing quote. -/
def parseStrBody : List Char → Option (List Char × List Char)
  | [] => none
  | c :: cs =>
    if c = '"' then some ([], cs)
    else if c = '\\' then
      match cs with
      | [] => none
      | e :: cs2 =>
        match escChar e, parseStrBody cs2 with
        | some ec, some (body, rest) => some (ec :: body, rest)
        | _, _ => none
    else
      match parseStrBody cs with
      | some (body, rest) => some (c :: body, rest)
      | none => none

/-- Greedily take leading decimal digits. -/
def takeDigits : List Char → List Char × List Char
  | [] => ([], [])
  | c :: cs =>
    if c.isDigit then
      let (ds, rest) := takeDigits cs
      (c :: ds, rest)
    else ([], c :: cs)

/-- Numeric value of a digit string. -/
def natOfDigits (ds : List Char) : Nat :=
  List.foldl (fun a c => a * 10 + (c.toNat - 48)) 0 ds

/-- Parse a JSON integer numeral (optional minus sign, then digits). -/
def parseNum (cs : List Char) : Option (Int × List Char) :=
  let (neg, cs1) :=
    match cs with
    | c :: rest => if c = '-' then (true, rest) else (false, cs)
    | [] => (false, ([] : List Char))
  match takeDigits cs1 with
  | ([], _) => none
  | (ds, rest) =>
    let n : Int := Int.ofNat (natOfDigits ds)
    some (if neg then -n else n, rest)

/-- Match a literal keyword such as `true` at the head of the input. -/
def dropLit : List Char → List Char → Option (List Char)
  | [], cs => some cs
  | l :: ls, c :: cs => if c = l then dropLit ls cs else none
  | _ :: _, [] => none

mutual

/-- Parse one JSON value (fuel-indexed; fuel bounds nesting plus element
count and is chosen large enough at the top level). -/
def parseVal : Nat → List Char → Option (Json × List Char)
  | 0, _ => none
  | fuel + 1, cs =>
    match skipWs cs with
    | [] => none
    | c :: rest =>
      if c = braceO then parseObjBody fuel rest
      else if c = '[' then parseArrBody fuel rest
      else if c = '"' then
        match parseStrBody rest with
        | some (body, r) => some (.str (String.mk body), r)
        | none => none
      else if c = '-' || c.isDigit then
        match parseNum (c :: rest) with
        | some (n, r) => some (.num n, r)
        | none => none
      else
        match dropLit ['t', 'r', 'u', 'e'] (c :: rest) with
        | some r => some (.bool true, r)
        | none =>
          match dropLit ['f', 'a', 'l', 's', 'e'] (c :: rest) with
          | some r => some (.bool false, r)
          | none =>
            match dropLit ['n', 'u', 'l', 'l'] (c :: rest) with
            | some r => some (.null, r)
            | none => none

/-- Parse the inside of a JSON object after the opening brace. -/
def parseObjBody : Nat → List Char → Option (Json × List Char)
  | 0, _ => none
  | fuel + 1, cs =>
    match skipWs cs with
    | [] => none
    | c :: rest =>
      if c = braceC then some (.obj [], rest)
      else
        match parseMembers fuel (c :: rest) with
        | some (kvs, r) => some (.obj kvs, r)
        | none => none

/-- Parse one or more `"key": value` members, up to the closing brace. -/
def parseMembers : Nat → List Char → Option (List (String × Json) × List Char)
  | 0, _ => none
  | fuel + 1, cs =>
    match skipWs cs with
    | [] => none
    | c :: rest =>
      if c = '"' then
        match parseStrBody rest with
        | some (key, r1) =>
          match skipWs r1 with
          | ':' :: r2 =>
            match parseVal fuel r2 with
            | some (v, r3) =>
              match skipWs r3 with
              | ',' :: r4 =>
                match parseMembers fuel r4 with
                | some (kvs, r5) => some ((String.mk key, v) :: kvs, r5)
                | none => none
              | c2 :: r4 =>
                if c2 = braceC then some ([(String.mk key, v)], r4) else none
              | [] => none
            | none => none
          | _ => none
        | none => none
      else none

/-- Parse the inside of a JSON array after the opening bracket. -/
def parseArrBody : Nat → List Char → Option (Json × List Char)
  | 0, _ => none
  | fuel + 1, cs =>
    match skipWs cs with
    | [] => none
    | c :: rest =>
      if c = ']' then some (.arr [], rest)
      else
        match parseElems fuel (c :: rest) with
        | some (vs, r) => some (.arr vs, r)
        | none => none

/-- Parse one or more array elements, up to the closing bracket. -/
def parseElems : Nat → List Char → Option (List Json × List Char)
  | 0, _ => none
  | fuel + 1, cs =>
    match parseVal fuel cs with
    | some (v, r1) =>
      match skipWs r1 with
      | ',' :: r2 =>
        match parseElems fuel r2 with
        | some (vs, r3) => some (v :: vs, r3)
        | none => none
      | c :: r2 => if c = ']' then some ([v], r2) else none
      | [] => none
    | none => none

end

/-- Embedding of `json.loads`: parse a complete JSON document, requiring
the whole input (up to trailing whitespace) to be consumed; `none` is the
`json.JSONDecodeError` outcome. -/
def jsonLoads (s : String) : Option Json :=
  let cs := s.toList
  match parseVal (cs.length + 1) cs with
  | some (v, rest) => if skipWs rest = [] then some v else none
  | none => none

/-- A Python socket object as the client uses it: its OS handle, whether
`connect` has succeeded on it, and whether `close` has been called on it.
The source sets a 5-second timeout on every socket it creates, so the
timeout is left implicit. -/
structure PySocket where
  handle : Nat
  connected : Bool
  closed : Bool
deriving DecidableEq, Repr

/-- The `GeneratorClient` object: endpoint plus the `self.socket`
attribute (`none` models Python `None`). -/
structure Client where
  host : String
  port : Nat
  socket : Option PySocket
deriving DecidableEq, Repr

/-- Observable events: socket method calls, sleeps and console output. -/
inductive Ev where
  | socketCreate : Nat → Ev
  | connectCall : Nat → String → Nat → Ev
  | sendCall : Nat → String → Ev
  | recvCall : Nat → Nat → Ev
  | closeCall : Nat → Ev
  | sleep : Nat → Ev
  | log : String → Ev
deriving DecidableEq, Repr

/-- Outcome of the OS-level `socket.connect` call. -/
inductive ConnectB where
  | success : ConnectB
  | failure : String → ConnectB
deriving DecidableEq, Repr

/-- Outcome of a `socket.send` call on an open, connected socket. -/
inductive SendB where
  | ok : SendB
  | fault : String → SendB
deriving DecidableEq, Repr

/-- Outcome of a `socket.recv` call: bytes (already UTF-8 decoded),
`socket.timeout`, or any other transport fault (a fault also covers a
`UnicodeDecodeError` from `.decode`). -/
inductive RecvB where
  | bytes : String → RecvB
  | timeout : RecvB
  | fault : String → RecvB
deriving DecidableEq, Repr

/-- The network behaviour of one command/response exchange. -/
structure ExchangeB where
  sendB : SendB
  recvB : RecvB
deriving DecidableEq, Repr

/-- The return value of `send_command`: a decoded JSON value, the raw
reply text, or Python `None` (used for every error path; note that the
source returns the same `None` for not-connected, timeout and I/O
faults). -/
inductive Reply where
  | jsonVal : Json → Reply
  | strVal : String → Reply
  | noneVal : Reply
deriving Repr

/-- Representative message of the `OSError` CPython raises when `send`
or `recv` is called on a closed socket (exact text is OS-dependent). -/
def closedSockMsg : String := "[Errno 9] Bad file descriptor"

/-- Representative message of the `OSError` raised when `send` is called
on a socket that never connected (exact text is OS-dependent). -/
def notConnSockMsg : String := "[Errno 32] Broken pipe"

namespace GeneratorClient

/-- Embedding of `GeneratorClient.connect`: creates a fresh socket and
stores it in `self.socket` BEFORE attempting the OS connect, sets the
timeout, then connects; returns `True` on success and `False` on any
exception.  Note the socket attribute is assigned in both cases. -/
def connect (c : Client) (h : Nat) (b : ConnectB) : Client × Bool × List Ev :=
  match b with
  | .success =>
    ({ c with socket := some ⟨h, true, false⟩ }, true,
     [.socketCreate h, .connectCall h c.host c.port,
      .log ("Connected to generator engine at " ++ c.host)])
  | .failure msg =>
    ({ c with socket := some ⟨h, false, false⟩ }, false,
     [.socketCreate h, .connectCall h c.host c.port,
      .log ("Failed to connect: " ++ msg)])

/-- Embedding of `GeneratorClient.send_command`.  If `self.socket` is
falsy (`None`) it logs and returns `None` with no socket call.
Otherwise it calls `send` (which raises deterministically on a closed or
never-connected socket), then `recv(1024)`, then tries `json.loads`,
falling back to the raw text; every exception in the try block is caught
and converted to the return value `None`.  The client state is not
modified.  Returns the Python return value and the event trace. -/
def send_command (c : Client) (b : ExchangeB) (cmd : String) :
    Reply × List Ev :=
  match c.socket with
  | none => (.noneVal, [.log "Not connected"])
  | some sk =>
    let pre : List Ev := [.log ("Sending: " ++ cmd)]
    if sk.closed then
      (.noneVal, pre ++ [.sendCall sk.handle cmd,
        .log ("Error sending command: " ++ closedSockMsg)])
    else if sk.connected = false then
      (.noneVal, pre ++ [.sendCall sk.handle cmd,
        .log ("Error sending command: " ++ notConnSockMsg)])
    else
      match b.sendB with
      | .fault msg =>
        (.noneVal, pre ++ [.sendCall sk.handle cmd,
          .log ("Error sending command: " ++ msg)])
      | .ok =>
        let ev1 : List Ev := pre ++ [.sendCall sk.handle cmd, .recvCall sk.handle 1024]
        match b.recvB with
        | .timeout =>
          (.noneVal, ev1 ++ [.log "Error sending command: timed out"])
        | .fault msg =>
          (.noneVal, ev1 ++ [.log ("Error sending command: " ++ msg)])
        | .bytes resp =>
          let ev2 : List Ev := ev1 ++ [.log ("Response: " ++ resp)]
          match jsonLoads resp with
          | some v => (.jsonVal v, ev2)
          | none => (.strVal resp, ev2 ++ [.log "Response is not valid JSON"])

/-- Embedding of `GeneratorClient.close`: if `self.socket` is set it
calls `socket.close()` and logs; it never clears the attribute, so the
guard remains truthy on later calls.  `socket.close()` on an
already-closed socket is a harmless no-op in CPython, so no exception
path exists. -/
def close (c : Client) : Client × List Ev :=
  match c.socket with
  | none => (c, [])
  | some sk =>
    ({ c with socket := some { sk with closed := true } },
     [.closeCall sk.handle, .log "Connection closed"])

end GeneratorClient

/-- One action of the driver try-block: a `send_command` call or a
`time.sleep`. -/
inductive DriverAction where
  | cmd : String → DriverAction
  | wait : Nat → DriverAction
deriving DecidableEq, Repr

/-- The fixed action sequence of `main`, in source order. -/
def mainActions : List DriverAction :=
  [.cmd "status", .cmd "start", .wait 3, .cmd "status", .cmd "set_load 50",
   .wait 2, .cmd "status", .cmd "set_load 10", .cmd "stop", .cmd "status"]

/-- The environment of one run of `main`: the connect outcome, the
behaviour of the i-th command/response exchange, and the index of the
action before which a `KeyboardInterrupt` is raised (if any; an index
past the end means no interrupt fires). -/
structure Env where
  connectB : ConnectB
  exchangeB : Nat → ExchangeB
  interruptBefore : Option Nat

/-- Run the driver try-block: execute the actions in order, threading
the index of the next exchange behaviour; a pending interrupt fires
between actions and abandons the rest.  Returns whether the run was
interrupted, and the trace.  The client is never mutated by
`send_command`, so its state is constant throughout. -/
def runActions (c : Client) (exB : Nat → ExchangeB) (intr : Option Nat) :
    List DriverAction → Nat → Nat → Bool × List Ev
  | [], _, _ => (false, [])
  | a :: rest, aIdx, cIdx =>
    if intr = some aIdx then (true, [])
    else
      match a with
      | .cmd s =>
        let (_, evs) := GeneratorClient.send_command c (exB cIdx) s
        let (intd, evs2) := runActions c exB intr rest (aIdx + 1) (cIdx + 1)
        (intd, evs ++ evs2)
      | .wait n =>
        let (intd, evs2) := runActions c exB intr rest (aIdx + 1) cIdx
        (intd, .sleep n :: evs2)

/-- The process outcome of `main`: `sys.exit(1)` or normal completion. -/
inductive Outcome where
  | exited : Nat → Outcome
  | completed : Outcome
deriving DecidableEq, Repr

/-- Embedding of `main`: create the client with the default endpoint,
connect, exit with code 1 on connect failure; otherwise run the fixed
action sequence inside try/except-KeyboardInterrupt/finally, and close
the client in the `finally` block on every exit path. -/
def mainRun (env : Env) : Outcome × List Ev :=
  let c0 : Client := ⟨"localhost", 8081, none⟩
  let (c1, ok, evs1) := GeneratorClient.connect c0 1 env.connectB
  if ok = false then
    (.exited 1, evs1 ++ [.log "Cannot continue without connection"])
  else
    let (intd, evs2) := runActions c1 env.exchangeB env.interruptBefore mainActions 0 0
    let tail : List Ev :=
      if intd then [.log "Interrupted by user"] else [.log "Demonstration completed!"]
    let (_, evs3) := GeneratorClient.close c1
    (.completed, evs1 ++ evs2 ++ tail ++ evs3)

/-- Whether an event is a `send` call on a socket. -/
def Ev.isSendCall : Ev → Bool
  | .sendCall _ _ => true
  | _ => false

/-- Whether an event is a `recv` call on a socket. -/
def Ev.isRecvCall : Ev → Bool
  | .recvCall _ _ => true
  | _ => false

/-- Whether an event is a `socket.close` call. -/
def Ev.isCloseCall : Ev → Bool
  | .closeCall _ => true
  | _ => false

/-- Whether an event is a socket I/O call (send or recv). -/
def Ev.isIOCall (e : Ev) : Bool := e.isSendCall || e.isRecvCall

/-- Whether an event is a protocol-level action of the driver: a command
write or a settling sleep. -/
def Ev.isProto : Ev → Bool
  | .sendCall _ _ => true
  | .sleep _ => true
  | _ => false

/-- An example structured reply payload from the spec round-trip test. -/
def structuredReplyExample : String := "\x7b\"state\":\"running\",\"load\":50\x7d"

lemma send_command_filter_close (c : Client) (b : ExchangeB) (cmd : String) :
    ((GeneratorClient.send_command c b cmd).2.filter Ev.isCloseCall) = [] := by
  rcases c with ⟨host, port, sk⟩
  rcases sk with _ | ⟨hd, co, cl⟩
  · simp [GeneratorClient.send_command, Ev.isCloseCall]
  · rcases b with ⟨sb, rb⟩
    cases co <;> cases cl <;> cases sb <;> cases rb <;>
      try simp [GeneratorClient.send_command, Ev.isCloseCall]
    all_goals
      rename_i s
      cases hj : jsonLoads s <;>
        simp [GeneratorClient.send_command, Ev.isCloseCall, hj]

lemma send_command_filter_proto (host : String) (port hd : Nat)
    (b : ExchangeB) (cmd : String) :
    ((GeneratorClient.send_command ⟨host, port, some ⟨hd, true, false⟩⟩ b cmd).2.filter
      Ev.isProto) = [.sendCall hd cmd] := by
  rcases b with ⟨sb, rb⟩
  cases sb with
  | fault m => simp [GeneratorClient.send_command, Ev.isProto]
  | ok =>
    cases rb with
    | timeout => simp [GeneratorClient.send_command, Ev.isProto]
    | fault m => simp [GeneratorClient.send_command, Ev.isProto]
    | bytes s =>
      cases hj : jsonLoads s <;>
        simp [GeneratorClient.send_command, Ev.isProto, hj]

lemma send_command_filter_send (host : String) (port hd : Nat)
    (b : ExchangeB) (cmd : String) :
    ((GeneratorClient.send_command ⟨host, port, some ⟨hd, true, false⟩⟩ b cmd).2.filter
      Ev.isSendCall) = [.sendCall hd cmd] := by
  rcases b with ⟨sb, rb⟩
  cases sb with
  | fault m => simp [GeneratorClient.send_command, Ev.isSendCall]
  | ok =>
    cases rb with
    | timeout => simp [GeneratorClient.send_command, Ev.isSendCall]
    | fault m => simp [GeneratorClient.send_command, Ev.isSendCall]
    | bytes s =>
      cases hj : jsonLoads s <;>
        simp [GeneratorClient.send_command, Ev.isSendCall, hj]

lemma send_command_filter_recv (host : String) (port hd : Nat)
    (b : ExchangeB) (cmd : String) :
    ((GeneratorClient.send_command ⟨host, port, some ⟨hd, true, false⟩⟩ b cmd).2.filter
        Ev.isRecvCall) = [] ∨
    ((GeneratorClient.send_command ⟨host, port, some ⟨hd, true, false⟩⟩ b cmd).2.filter
        Ev.isRecvCall) = [.recvCall hd 1024] := by
  rcases b with ⟨sb, rb⟩
  cases sb with
  | fault m => left; simp [GeneratorClient.send_command, Ev.isRecvCall]
  | ok =>
    cases rb with
    | timeout => right; simp [GeneratorClient.send_command, Ev.isRecvCall]
    | fault m => right; simp [GeneratorClient.send_command, Ev.isRecvCall]
    | bytes s =>
      right
      cases hj : jsonLoads s <;>
        simp [GeneratorClient.send_command, Ev.isRecvCall, hj]

lemma runActions_filter_close (c : Client) (exB : Nat → ExchangeB)
    (intr : Option Nat) (acts : List DriverAction) (aIdx cIdx : Nat) :
    ((runActions c exB intr acts aIdx cIdx).2.filter Ev.isCloseCall) = [] := by
  induction acts generalizing aIdx cIdx with
  | nil => rfl
  | cons a rest ih =>
    by_cases hi : intr = some aIdx
    · simp [runActions, hi]
    · cases a <;>
        simp [runActions, hi, List.filter_append, send_command_filter_close,
          Ev.isCloseCall, ih]

lemma runActions_filter_proto (host : String) (port hd : Nat)
    (exB : Nat → ExchangeB) (acts : List DriverAction) (aIdx cIdx : Nat) :
    ((runActions ⟨host, port, some ⟨hd, true, false⟩⟩ exB none acts aIdx cIdx).2.filter
      Ev.isProto) =
      acts.map (fun a =>
        match a with
        | .cmd s => Ev.sendCall hd s
        | .wait n => Ev.sleep n) := by
  induction acts generalizing aIdx cIdx with
  | nil => rfl
  | cons a rest ih =>
    cases a <;>
      simp [runActions, List.filter_append, send_command_filter_proto,
        Ev.isProto, ih]

lemma runActions_filter_send (host : String) (port hd : Nat)
    (exB : Nat → ExchangeB) (acts : List DriverAction) (aIdx cIdx : Nat) :
    ((runActions ⟨host, port, some ⟨hd, true, false⟩⟩ exB none acts aIdx cIdx).2.filter
      Ev.isSendCall) =
      (acts.filterMap (fun a =>
        match a with
        | .cmd s => some (Ev.sendCall hd s)
        | .wait _ => none)) := by
  induction acts generalizing aIdx cIdx with
  | nil => rfl
  | cons a rest ih =>
    cases a <;>
      simp [runActions, List.filter_append, send_command_filter_send,
        Ev.isSendCall, ih]

/-- Claim C1, counterexample: take the Session obtained by a successful
connect followed by `close()`.  Because `close` never clears the socket
attribute, a subsequent `send_command` does NOT take the not-connected
branch (its trace has no `Not connected` log): it attempts a `send` call
on the closed socket (one write attempt, which is I/O) and returns via
the generic I/O-error branch — contradicting the claim that it returns
the NotConnected outcome and performs no I/O. -/
theorem C1_closed_session_counterexample :
    (((GeneratorClient.send_command
        (GeneratorClient.close
          ((GeneratorClient.connect ⟨"localhost", 8081, none⟩ 1 .success).1)).1
        ⟨.ok, .bytes "OK"⟩ "status").2.filter Ev.isSendCall).length = 1) ∧
    (Ev.log "Not connected") ∉
      (GeneratorClient.send_command
        (GeneratorClient.close
          ((GeneratorClient.connect ⟨"localhost", 8081, none⟩ 1 .success).1)).1
        ⟨.ok, .bytes "OK"⟩ "status").2 ∧
    (Ev.log ("Error sending command: " ++ closedSockMsg)) ∈
      (GeneratorClient.send_command
        (GeneratorClient.close
          ((GeneratorClient.connect ⟨"localhost", 8081, none⟩ 1 .success).1)).1
        ⟨.ok, .bytes "OK"⟩ "status").2 := by
  decide

/-- Claim C1, amended: on a Session whose socket attribute was never set
(no connect ever attempted), `send_command` returns `None` after only
logging `Not connected`, with no socket operation at all.  On a Session
closed via `close()`, the socket attribute is still set, so
`send_command` instead attempts one `send` call on the closed socket,
which fails, and returns the same absent value `None` via the I/O-error
branch. -/
theorem C1_amended_not_connected_behaviour (host : String) (port hd : Nat)
    (co : Bool) (b b2 : ExchangeB) (cmd cmd2 : String) :
    (GeneratorClient.send_command ⟨host, port, none⟩ b cmd =
      (.noneVal, [.log "Not connected"])) ∧
    (GeneratorClient.send_command ⟨host, port, some ⟨hd, co, true⟩⟩ b2 cmd2 =
      (.noneVal, [.log ("Sending: " ++ cmd2), .sendCall hd cmd2,
        .log ("Error sending command: " ++ closedSockMsg)])) := by
  exact ⟨rfl, rfl⟩

/-- Claim C2, counterexample: on a fresh Session (socket attribute
`None`), a failing `connect` returns `False` but does NOT leave the
Session unchanged: the source assigns `self.socket` to a freshly created
socket object before the OS connect is attempted, so after the failure
the socket attribute has changed from `None` to an unconnected socket. -/
theorem C2_connect_failure_counterexample :
    ((GeneratorClient.connect ⟨"localhost", 8081, none⟩ 1
        (.failure "Connection refused")).2.1 = false) ∧
    ((⟨"localhost", 8081, none⟩ : Client).socket = none) ∧
    ((GeneratorClient.connect ⟨"localhost", 8081, none⟩ 1
        (.failure "Connection refused")).1.socket = some ⟨1, false, false⟩) ∧
    ((GeneratorClient.connect ⟨"localhost", 8081, none⟩ 1
        (.failure "Connection refused")).1.socket ≠ none) := by
  decide

/-- Claim C2, amended: a failing `connect` reports the failure and
returns `False`, but mutates the Session: the socket attribute is set to
the newly created, never-connected socket (so the Session is not left in
its pre-call state; a retry simply replaces this socket). -/
theorem C2_amended_connect_failure (c : Client) (h : Nat) (msg : String) :
    GeneratorClient.connect c h (.failure msg) =
      ({ c with socket := some ⟨h, false, false⟩ }, false,
       [.socketCreate h, .connectCall h c.host c.port,
        .log ("Failed to connect: " ++ msg)]) := rfl

/-- Claim C3, counterexample: after a successful connect and a first
`close()`, a second `close()` call still finds the socket attribute set
(it is never cleared), so it invokes the socket close operation a second
time — its trace contains a second close call, contradicting the claim
that the second call performs no second I/O operation. -/
theorem C3_double_close_counterexample :
    ((GeneratorClient.close
        (GeneratorClient.close
          ((GeneratorClient.connect ⟨"localhost", 8081, none⟩ 1 .success).1)).1).2.filter
      Ev.isCloseCall).length = 1 := by
  decide

/-- Claim C3, amended: `close()` never fails: on a never-connected
Session (socket attribute `None`) it does nothing; on a Session with a
socket it marks the socket closed and emits one close call.  Calling it
twice produces no error and leaves the state unchanged, but — because
the socket attribute is never cleared — the second call repeats the
socket close operation, which is a harmless no-op on an already-closed
socket. -/
theorem C3_amended_close_behaviour (host : String) (port hd : Nat) (co cl : Bool) :
    (GeneratorClient.close ⟨host, port, none⟩ = (⟨host, port, none⟩, [])) ∧
    (GeneratorClient.close ⟨host, port, some ⟨hd, co, cl⟩⟩ =
      (⟨host, port, some ⟨hd, co, true⟩⟩,
       [.closeCall hd, .log "Connection closed"])) ∧
    ((GeneratorClient.close
        (GeneratorClient.close ⟨host, port, some ⟨hd, co, cl⟩⟩).1).1 =
      (GeneratorClient.close ⟨host, port, some ⟨hd, co, cl⟩⟩).1) ∧
    ((GeneratorClient.close
        (GeneratorClient.close ⟨host, port, some ⟨hd, co, cl⟩⟩).1).2 =
      [.closeCall hd, .log "Connection closed"]) := by
  exact ⟨rfl, rfl, rfl, rfl⟩

/-- Claim C4 (confirmed): on a connected Session, decoding a received
reply is total with a fallback: the result of `send_command` on received
bytes is the parsed JSON value when `json.loads` succeeds and the raw
text otherwise (never an error); in particular the payload
`\x7b"state":"running","load":50\x7d` decodes to exactly that mapping and the
non-JSON payload `OK` decodes to the raw text `OK`. -/
theorem C4_decode_total_with_fallback (host : String) (port hd : Nat)
    (cmd : String) (st : String) :
    ((GeneratorClient.send_command ⟨host, port, some ⟨hd, true, false⟩⟩
        ⟨.ok, .bytes st⟩ cmd).1 =
      match jsonLoads st with
      | some v => Reply.jsonVal v
      | none => Reply.strVal st) ∧
    ((GeneratorClient.send_command ⟨host, port, some ⟨hd, true, false⟩⟩
        ⟨.ok, .bytes structuredReplyExample⟩ cmd).1 =
      .jsonVal (.obj [("state", .str "running"), ("load", .num 50)])) ∧
    ((GeneratorClient.send_command ⟨host, port, some ⟨hd, true, false⟩⟩
        ⟨.ok, .bytes "OK"⟩ cmd).1 = .strVal "OK") := by
  refine ⟨?_, ?_, ?_⟩
  · cases hj : jsonLoads st <;>
      simp [GeneratorClient.send_command, hj]
  · rfl
  · rfl

/-- Claim C5, counterexample: on a connected Session, a timed-out
receive makes `send_command` return `None` — exactly the same value it
returns for a transport fault and for a never-connected Session, so
there is no distinct Timeout error value distinguishable from the Io
and NotConnected outcomes. -/
theorem C5_timeout_not_distinct_counterexample :
    ((GeneratorClient.send_command ⟨"localhost", 8081, some ⟨1, true, false⟩⟩
        ⟨.ok, .timeout⟩ "status").1 = .noneVal) ∧
    ((GeneratorClient.send_command ⟨"localhost", 8081, some ⟨1, true, false⟩⟩
        ⟨.ok, .fault "Connection reset by peer"⟩ "status").1 = .noneVal) ∧
    ((GeneratorClient.send_command ⟨"localhost", 8081, none⟩
        ⟨.ok, .timeout⟩ "status").1 = .noneVal) := by
  exact ⟨rfl, rfl, rfl⟩

/-- Claim C5, amended: when the receive window elapses with no bytes,
`send_command` returns the absent value `None` — the same value as for
an I/O fault or a not-connected Session, distinguished only by the
logged message (`timed out`) — and the Command Driver proceeds through
its whole sequence regardless: under a successful connect and no
interrupt it issues all eight commands whatever each exchange does
(in particular when every receive times out). -/
theorem C5_amended_timeout_continue (host : String) (port hd : Nat)
    (cmd : String) (exB : Nat → ExchangeB) :
    (GeneratorClient.send_command ⟨host, port, some ⟨hd, true, false⟩⟩
        ⟨.ok, .timeout⟩ cmd =
      (.noneVal, [.log ("Sending: " ++ cmd), .sendCall hd cmd,
        .recvCall hd 1024, .log "Error sending command: timed out"])) ∧
    ((mainRun ⟨.success, exB, none⟩).2.filter Ev.isSendCall =
      [.sendCall 1 "status", .sendCall 1 "start", .sendCall 1 "status",
       .sendCall 1 "set_load 50", .sendCall 1 "status",
       .sendCall 1 "set_load 10", .sendCall 1 "stop", .sendCall 1 "status"]) := by
  constructor
  · rfl
  · simp [mainRun, GeneratorClient.connect, GeneratorClient.close,
      List.filter_append, runActions_filter_send, Ev.isSendCall, mainActions]
    split <;> simp

/-- Claim C6 (confirmed): when `connect` fails, `main` prints the
failure, performs no socket I/O at all (no write, no read — so no
command is ever sent), and terminates via `sys.exit(1)`, a non-zero
outcome. -/
theorem C6_connect_failure_aborts (msg : String) (exB : Nat → ExchangeB)
    (intr : Option Nat) :
    ((mainRun ⟨.failure msg, exB, intr⟩).1 = .exited 1) ∧
    ((mainRun ⟨.failure msg, exB, intr⟩).2.filter Ev.isIOCall = []) := by
  constructor
  · rfl
  · rfl

/-- Claim C7 (confirmed): whenever `connect` succeeds, the `finally`
block guarantees that on every exit path of the driver — normal
completion, any combination of failed steps, or an operator interrupt
before any action — the Session socket is closed exactly once: the
close calls in the whole run trace are exactly one close of the
connected socket. -/
theorem C7_close_exactly_once (exB : Nat → ExchangeB) (intr : Option Nat) :
    ((mainRun ⟨.success, exB, intr⟩).2.filter Ev.isCloseCall) = [.closeCall 1] := by
  simp [mainRun, GeneratorClient.connect, GeneratorClient.close,
    List.filter_append, runActions_filter_close, Ev.isCloseCall]
  split <;> simp

/-- Claim C8 (confirmed): one `send_command` call on a connected Session
performs exactly one write, consisting of the literal command text, and
at most one read, which is always the bounded `recv(1024)`; nothing is
buffered across calls (the trace of one call contains exactly these
socket operations). -/
theorem C8_one_write_at_most_one_read (host : String) (port hd : Nat)
    (b : ExchangeB) (cmd : String) :
    (((GeneratorClient.send_command ⟨host, port, some ⟨hd, true, false⟩⟩ b cmd).2.filter
        Ev.isSendCall) = [.sendCall hd cmd]) ∧
    ((((GeneratorClient.send_command ⟨host, port, some ⟨hd, true, false⟩⟩ b cmd).2.filter
        Ev.isRecvCall) = []) ∨
     (((GeneratorClient.send_command ⟨host, port, some ⟨hd, true, false⟩⟩ b cmd).2.filter
        Ev.isRecvCall) = [.recvCall hd 1024])) := by
  exact ⟨send_command_filter_send host port hd b cmd,
         send_command_filter_recv host port hd b cmd⟩

/-- Claim C9 (confirmed): under a successful connect and no interrupt,
whatever each exchange does, the protocol-level trace of the driver is
exactly the fixed sequence: `status`, `start`, a 3-unit settling sleep,
`status`, `set_load 50`, a 2-unit settling sleep, `status`,
`set_load 10`, `stop`, `status` — each command one `send_command` write,
issued strictly in this order, and no write occurs during either
sleep. -/
theorem C9_driver_fixed_sequence (exB : Nat → ExchangeB) :
    ((mainRun ⟨.success, exB, none⟩).2.filter Ev.isProto) =
      [.sendCall 1 "status", .sendCall 1 "start", .sleep 3,
       .sendCall 1 "status", .sendCall 1 "set_load 50", .sleep 2,
       .sendCall 1 "status", .sendCall 1 "set_load 10",
       .sendCall 1 "stop", .sendCall 1 "status"] := by
  simp [mainRun, GeneratorClient.connect, GeneratorClient.close,
    List.filter_append, runActions_filter_proto, Ev.isProto, mainActions]
  split <;> simp

/-- Claim C10 (confirmed): whenever the socket attribute is set,
`send_command` is a total function that propagates no exception: for
every command and every transport behaviour (send fault, receive
timeout, receive fault, or received bytes) it returns either a decoded
JSON value, the raw reply text, or the absent value `None` — and every
faulting behaviour is converted into `None` rather than an escaping
fault. -/
theorem C10_send_command_never_raises (host : String) (port : Nat)
    (sk : PySocket) (b : ExchangeB) (cmd msg : String) :
    ((∃ v, (GeneratorClient.send_command ⟨host, port, some sk⟩ b cmd).1 = .jsonVal v) ∨
     (∃ s, (GeneratorClient.send_command ⟨host, port, some sk⟩ b cmd).1 = .strVal s) ∨
     ((GeneratorClient.send_command ⟨host, port, some sk⟩ b cmd).1 = .noneVal)) ∧
    ((GeneratorClient.send_command ⟨host, port, some sk⟩
        ⟨.fault msg, b.recvB⟩ cmd).1 = .noneVal) ∧
    ((GeneratorClient.send_command ⟨host, port, some sk⟩
        ⟨.ok, .timeout⟩ cmd).1 = .noneVal) ∧
    ((GeneratorClient.send_command ⟨host, port, some sk⟩
        ⟨.ok, .fault msg⟩ cmd).1 = .noneVal) := by
  obtain ⟨hd, co, cl⟩ := sk
  refine ⟨?_, ?_, ?_, ?_⟩
  · rcases hr : (GeneratorClient.send_command ⟨host, port, some ⟨hd, co, cl⟩⟩ b cmd).1 with
      v | s | _
    · exact .inl ⟨v, rfl⟩
    · exact .inr (.inl ⟨s, rfl⟩)
    · exact .inr (.inr rfl)
  · cases co <;> cases cl <;> rfl
  · cases co <;> cases cl <;> rfl
  · cases co <;> cases cl <;> rfl
